import Mathlib

/-!
Verification of the workflow-orchestration core of the EAM Cognitive OS
backend (state model, DSEE transition engine, supervisor router, graph
routing function, HITL subsystem, checkpoint store).

The Python source is shallowly embedded: Pydantic models become Lean
structures, in-place mutating helper methods become pure functions that
return the updated record, `datetime.utcnow()` is threaded as an explicit
`now : Nat` argument, exceptions become `Except`, and database tables
become in-memory lists of rows.  Floating-point fields that no claim
touches (OKR relevance scores) are omitted; router confidence is modelled
in hundredths.  LangGraph node return dictionaries are modelled by a
`StateUpdate` record of optional channel writes, merged by `apply_update`.
-/

-- ─────────────────────────────────────────────────────────────────────────
-- Enums (src/app/core/state.py)
-- ─────────────────────────────────────────────────────────────────────────

/-- Available agent slots (departments), `AgentSlot` in state.py. -/
inductive AgentSlot where
  | admisiones
  | finanzas
  | retencion
  | comunicaciones
  | tic
deriving DecidableEq, Repr

/-- The `.value` of a slot: the string value of the Python str-enum member. -/
def AgentSlot.value : AgentSlot → String
  | .admisiones => "admisiones"
  | .finanzas => "finanzas"
  | .retencion => "retencion"
  | .comunicaciones => "comunicaciones"
  | .tic => "tic"

/-- Parsing `AgentSlot(name)` for an arbitrary string; `none` models the ValueError
branch for an invalid slot name. -/
def parse_agent_slot (name : String) : Option AgentSlot :=
  if name = "admisiones" then some .admisiones
  else if name = "finanzas" then some .finanzas
  else if name = "retencion" then some .retencion
  else if name = "comunicaciones" then some .comunicaciones
  else if name = "tic" then some .tic
  else none

/-- Types of brain log entries, `StepType` in state.py. -/
inductive StepType where
  | thinking
  | action
  | observation
  | decision
  | error
deriving DecidableEq, Repr

/-- HITL request status, `HITLStatus` in db/models.py. -/
inductive HITLStatus where
  | pending
  | approved
  | rejected
  | expired
deriving DecidableEq, Repr

-- ─────────────────────────────────────────────────────────────────────────
-- Nested state components (src/app/core/state.py)
-- ─────────────────────────────────────────────────────────────────────────

/-- Single entry of the brain log (`BrainLogEntry`).  `timestamp` models the
wall-clock `datetime.utcnow()` default as a Nat supplied by the caller. -/
structure BrainLogEntry where
  step_type : StepType
  content : String
  agent_slot : Option AgentSlot := none
  tool_name : Option String := none
  tool_input : Option (List (String × String)) := none
  tool_output : Option String := none
  tokens_used : Option Nat := none
  duration_ms : Option Nat := none
  timestamp : Nat := 0
deriving DecidableEq, Repr

/-- GenUI payload streamed to the frontend (`GenUIPayload`). -/
structure GenUIPayload where
  component : String
  data : List (String × String)
  metadata : Option (List (String × String)) := none
deriving DecidableEq, Repr

/-- Security context of the request (`SecurityContext`). -/
structure SecurityContext where
  user_id : String
  access_level : String := "externo"
  device_verified : Bool := false
  session_id : String
  ip_address : Option String := none
  user_agent : Option String := none
deriving DecidableEq, Repr

/-- OKR alignment context (`OKRContext`); the float-valued
`relevance_scores` map is not modelled (no claim depends on it). -/
structure OKRContext where
  aligned_okr_ids : List String := []
  primary_objective : Option String := none
  context_summary : Option String := none
deriving DecidableEq, Repr

-- ─────────────────────────────────────────────────────────────────────────
-- The canonical run state (`CognitiveState` in src/app/core/state.py)
-- ─────────────────────────────────────────────────────────────────────────

/-- The canonical state object threaded through the graph.  UUID fields are
modelled as strings; LangGraph `messages` are modelled by their string
contents; `retrieved_memories` by their content strings. -/
structure CognitiveState where
  run_id : String
  conversation_id : String
  triggered_by : String
  user_message : String
  current_response : String := ""
  final_response : Option String := none
  messages : List String := []
  next_agent : Option AgentSlot := none
  visited_agents : List AgentSlot := []
  delegation_chain : List AgentSlot := []
  brain_log : List BrainLogEntry := []
  genui_payloads : List GenUIPayload := []
  okr_context : Option OKRContext := none
  retrieved_memories : List String := []
  memory_query : Option String := none
  requires_hitl : Bool := false
  hitl_reason : Option String := none
  hitl_request_id : Option String := none
  is_complete : Bool := false
  error : Option String := none
  iteration_count : Nat := 0
  security_context : SecurityContext
  created_at : Nat := 0
  updated_at : Nat := 0
deriving DecidableEq, Repr

/-- Python truthiness of an `Optional[str]` field: `None` and the empty
string are falsy, every other string is truthy. -/
def truthy_str : Option String → Bool
  | none => false
  | some s => s ≠ ""

/-- Python f-string rendering of an `Optional[str]` value. -/
def opt_repr : Option String → String
  | none => "None"
  | some s => s

-- ─────────────────────────────────────────────────────────────────────────
-- State helper methods (CognitiveState.log_* etc., state.py lines 187-285)
-- ─────────────────────────────────────────────────────────────────────────

/-- Helper `log_thinking`: append a THINKING entry. -/
def CognitiveState.log_thinking (s : CognitiveState) (content : String)
    (agent : Option AgentSlot) (now : Nat) : CognitiveState :=
  { s with
    brain_log := s.brain_log ++
      [{ step_type := .thinking, content := content, agent_slot := agent,
         timestamp := now }]
    updated_at := now }

/-- Helper `log_action`: append an ACTION entry recording a tool invocation. -/
def CognitiveState.log_action (s : CognitiveState) (tool_name : String)
    (tool_input : List (String × String)) (agent : Option AgentSlot)
    (now : Nat) : CognitiveState :=
  { s with
    brain_log := s.brain_log ++
      [{ step_type := .action, content := "Executing tool: " ++ tool_name,
         agent_slot := agent, tool_name := some tool_name,
         tool_input := some tool_input, timestamp := now }]
    updated_at := now }

/-- Helper `log_observation`: append an OBSERVATION entry. -/
def CognitiveState.log_observation (s : CognitiveState) (content : String)
    (tool_name : Option String) (tool_output : Option String)
    (agent : Option AgentSlot) (now : Nat) : CognitiveState :=
  { s with
    brain_log := s.brain_log ++
      [{ step_type := .observation, content := content, agent_slot := agent,
         tool_name := tool_name, tool_output := tool_output,
         timestamp := now }]
    updated_at := now }

/-- Helper `log_decision`: append a DECISION entry. -/
def CognitiveState.log_decision (s : CognitiveState) (content : String)
    (agent : Option AgentSlot) (now : Nat) : CognitiveState :=
  { s with
    brain_log := s.brain_log ++
      [{ step_type := .decision, content := content, agent_slot := agent,
         timestamp := now }]
    updated_at := now }

/-- Helper `log_error`: append an ERROR entry and set `error` to its content. -/
def CognitiveState.log_error (s : CognitiveState) (content : String)
    (agent : Option AgentSlot) (now : Nat) : CognitiveState :=
  { s with
    brain_log := s.brain_log ++
      [{ step_type := .error, content := content, agent_slot := agent,
         timestamp := now }]
    error := some content
    updated_at := now }

/-- Helper `add_genui`: append a GenUI payload. -/
def CognitiveState.add_genui (s : CognitiveState) (component : String)
    (data : List (String × String)) (now : Nat) : CognitiveState :=
  { s with
    genui_payloads := s.genui_payloads ++ [{ component := component, data := data }]
    updated_at := now }

/-- Helper `mark_visited`: record an agent as visited, skipping duplicates. -/
def CognitiveState.mark_visited (s : CognitiveState) (agent : AgentSlot)
    (now : Nat) : CognitiveState :=
  if agent ∈ s.visited_agents then
    { s with updated_at := now }
  else
    { s with visited_agents := s.visited_agents ++ [agent], updated_at := now }

/-- Helper `request_hitl`: flag the run as requiring human approval. -/
def CognitiveState.request_hitl (s : CognitiveState) (reason : String)
    (now : Nat) : CognitiveState :=
  { s with requires_hitl := true, hitl_reason := some reason, updated_at := now }

/-- Helper `complete`: mark the run complete with its final response. -/
def CognitiveState.complete (s : CognitiveState) (response : String)
    (now : Nat) : CognitiveState :=
  { s with
    final_response := some response
    current_response := response
    is_complete := true
    updated_at := now }

-- ─────────────────────────────────────────────────────────────────────────
-- Settings (src/app/config.py)
-- ─────────────────────────────────────────────────────────────────────────

/-- The settings consumed by the orchestration core. -/
structure Settings where
  hitl_timeout_hours : Nat := 24
  max_agent_iterations : Nat := 10
deriving DecidableEq, Repr

/-- Settings with the defaults of config.py. -/
def default_settings : Settings := {}

-- ─────────────────────────────────────────────────────────────────────────
-- Graph routing function (src/app/core/supervisor.py, route_to_agent)
-- ─────────────────────────────────────────────────────────────────────────

/-- Function `route_to_agent`: the conditional-edge decision function of the graph.
Mirrors the Python tests, including truthiness of `state.error`. -/
def route_to_agent (cfg : Settings) (state : CognitiveState) : String :=
  if truthy_str state.error then "end"
  else if state.requires_hitl then "hitl_checkpoint"
  else if state.is_complete then "end"
  else if state.iteration_count ≥ cfg.max_agent_iterations then "end"
  else
    match state.next_agent with
    | some a => a.value
    | none => "end"

-- ─────────────────────────────────────────────────────────────────────────
-- Concrete states for counterexamples and witnesses
-- ─────────────────────────────────────────────────────────────────────────

/-- A concrete security context. -/
def sec0 : SecurityContext :=
  { user_id := "u0", session_id := "sess0" }

/-- A concrete freshly-constructed run state. -/
def state0 : CognitiveState :=
  { run_id := "run0", conversation_id := "conv0", triggered_by := "u0",
    user_message := "hola", security_context := sec0 }

-- ─────────────────────────────────────────────────────────────────────────
-- C1: route_to_agent priority order
-- ─────────────────────────────────────────────────────────────────────────

/-- Claim C1 as stated is false: `route_to_agent` tests Python truthiness
of `error`, so a state whose `error` is set to the empty string does not
take the error branch; with `requires_hitl` also set it routes to
"hitl_checkpoint", not "end". -/
theorem c1_claim_counterexample :
    ({ state0 with error := some "", requires_hitl := true } : CognitiveState).error.isSome = true
    ∧ route_to_agent default_settings
        { state0 with error := some "", requires_hitl := true } = "hitl_checkpoint"
    ∧ ("hitl_checkpoint" : String) ≠ "end" := by
  refine ⟨rfl, rfl, by decide⟩

/-- Claim C1 (amended): `route_to_agent` evaluates its conditions in strict
priority order, where condition (1) fires exactly when `error` holds a
non-empty string (Python truthiness): (1) non-empty error → "end";
(2) else `requires_hitl` → "hitl_checkpoint"; (3) else `is_complete` →
"end"; (4) else `iteration_count ≥ max_agent_iterations` → "end";
(5) else the name of `next_agent` if set, otherwise "end". -/
theorem c1_route_priority_amended (cfg : Settings) (s : CognitiveState) :
    (truthy_str s.error = true → route_to_agent cfg s = "end")
    ∧ (truthy_str s.error = false → s.requires_hitl = true →
        route_to_agent cfg s = "hitl_checkpoint")
    ∧ (truthy_str s.error = false → s.requires_hitl = false →
        s.is_complete = true → route_to_agent cfg s = "end")
    ∧ (truthy_str s.error = false → s.requires_hitl = false →
        s.is_complete = false → s.iteration_count ≥ cfg.max_agent_iterations →
        route_to_agent cfg s = "end")
    ∧ (truthy_str s.error = false → s.requires_hitl = false →
        s.is_complete = false → s.iteration_count < cfg.max_agent_iterations →
        route_to_agent cfg s =
          match s.next_agent with
          | some a => a.value
          | none => "end") := by
  refine ⟨?_, ?_, ?_, ?_, ?_⟩ <;> intros <;>
    simp_all [route_to_agent, Nat.not_le_of_lt, le_refl]

/-- Witness for the amended C1 at a concrete state with a non-empty error. -/
theorem c1_route_priority_amended_witness :
    route_to_agent default_settings { state0 with error := some "boom" } = "end" :=
  (c1_route_priority_amended default_settings
    { state0 with error := some "boom" }).1 rfl

-- ─────────────────────────────────────────────────────────────────────────
-- LangGraph node updates: a node returns a dictionary of channel writes
-- which LangGraph merges into the graph state.  Absent keys leave the
-- channel unchanged; `messages` is an `add_messages` channel (append).
-- ─────────────────────────────────────────────────────────────────────────

/-- A partial state update returned by a graph node. -/
structure StateUpdate where
  next_agent : Option (Option AgentSlot) := none
  delegation_chain : Option (List AgentSlot) := none
  current_response : Option String := none
  final_response : Option (Option String) := none
  error : Option (Option String) := none
  is_complete : Option Bool := none
  requires_hitl : Option Bool := none
  hitl_request_id : Option (Option String) := none
  brain_log : Option (List BrainLogEntry) := none
  genui_payloads : Option (List GenUIPayload) := none
  messages : List String := []

/-- Merge of a node's returned update into the graph state (LastValue
channels overwrite, the `messages` channel appends). -/
def apply_update (s : CognitiveState) (u : StateUpdate) : CognitiveState :=
  { s with
    next_agent := u.next_agent.getD s.next_agent
    delegation_chain := u.delegation_chain.getD s.delegation_chain
    current_response := u.current_response.getD s.current_response
    final_response := u.final_response.getD s.final_response
    error := u.error.getD s.error
    is_complete := u.is_complete.getD s.is_complete
    requires_hitl := u.requires_hitl.getD s.requires_hitl
    hitl_request_id := u.hitl_request_id.getD s.hitl_request_id
    brain_log := u.brain_log.getD s.brain_log
    genui_payloads := u.genui_payloads.getD s.genui_payloads
    messages := s.messages ++ u.messages }

-- ─────────────────────────────────────────────────────────────────────────
-- DSEE - Deterministic State Evolution Engine (src/app/core/dsee.py)
-- ─────────────────────────────────────────────────────────────────────────

/-- A state-transformation function; an `Except.error` value models an
exception raised by the Python callable. -/
def TransitionFn := CognitiveState → Except String CognitiveState

/-- Engine method `DSEEEngine.evolve`: apply a transition.  On success, the engine sets
`updated_at` and sets `iteration_count` to the input state's count plus
one.  On failure it appends an ERROR entry describing the failure to the
caller's state (in Python the caller's aliased state object) and re-raises
the same exception; the error value carries both the original exception
message and the error-logged state observable by the caller.  The
persistence callback and logging are external effects and are not
modelled. -/
def DSEEEngine.evolve (now : Nat) (s : CognitiveState) (f : TransitionFn)
    (transition_name : String) : Except (String × CognitiveState) CognitiveState :=
  match f s with
  | .ok new_state =>
      .ok { new_state with
        updated_at := now
        iteration_count := s.iteration_count + 1 }
  | .error e =>
      .error (e, s.log_error
        ("Transition \x27" ++ transition_name ++ "\x27 failed: " ++ e) none now)

/-- Engine method `DSEEEngine.batch_evolve`: apply a list of (transition, name) pairs
sequentially; a failure in any step aborts the remaining batch. -/
def DSEEEngine.batch_evolve (now : Nat) (s : CognitiveState) :
    List (TransitionFn × String) → Except (String × CognitiveState) CognitiveState
  | [] => .ok s
  | (f, name) :: rest =>
      match DSEEEngine.evolve now s f name with
      | .ok s2 => DSEEEngine.batch_evolve now s2 rest
      | .error e => .error e

/-- The state observable after an `evolve` outcome: the evolved state on
success, the caller's error-logged state on failure. -/
def evolve_out : Except (String × CognitiveState) CognitiveState → CognitiveState
  | .ok s => s
  | .error (_, s) => s

-- ─────────────────────────────────────────────────────────────────────────
-- C3: evolve increments iteration_count by exactly one
-- ─────────────────────────────────────────────────────────────────────────

/-- Claim C3: whenever the transition function returns normally, one call
of `DSEEEngine.evolve` yields a state whose `iteration_count` is the input
state's count plus one, for every transition function; consequently a
successful `batch_evolve` of N transitions yields the initial count plus
N exactly. -/
theorem c3_iteration_count_increment :
    (∀ (now : Nat) (s : CognitiveState) (f : TransitionFn) (name : String)
        (s2 : CognitiveState), DSEEEngine.evolve now s f name = .ok s2 →
        s2.iteration_count = s.iteration_count + 1)
    ∧ (∀ (now : Nat) (ts : List (TransitionFn × String)) (s s2 : CognitiveState),
        DSEEEngine.batch_evolve now s ts = .ok s2 →
        s2.iteration_count = s.iteration_count + ts.length) := by
  have single : ∀ (now : Nat) (s : CognitiveState) (f : TransitionFn)
      (name : String) (s2 : CognitiveState),
      DSEEEngine.evolve now s f name = .ok s2 →
      s2.iteration_count = s.iteration_count + 1 := by
    intro now s f name s2 h
    unfold DSEEEngine.evolve at h
    cases hf : f s with
    | ok t => rw [hf] at h; cases h; rfl
    | error e => rw [hf] at h; cases h
  refine ⟨single, ?_⟩
  intro now ts
  induction ts with
  | nil =>
      intro s s2 h
      cases h
      simp
  | cons p rest ih =>
      intro s s2 h
      obtain ⟨f, name⟩ := p
      unfold DSEEEngine.batch_evolve at h
      cases he : DSEEEngine.evolve now s f name with
      | ok s1 =>
          rw [he] at h
          have h1 := single now s f name s1 he
          have h2 := ih s1 s2 h
          simp [h2, h1, List.length_cons]
          omega
      | error e => rw [he] at h; cases h

/-- Witness for C3: a concrete two-step batch adds exactly two. -/
theorem c3_iteration_count_increment_witness :
    DSEEEngine.batch_evolve 0 state0
        [(fun s => Except.ok (s.log_thinking "a" none 0), "t1"),
         (fun s => Except.ok s, "t2")] =
      Except.ok ({ state0 with
        brain_log := [{ step_type := .thinking, content := "a" }],
        iteration_count := 2 } : CognitiveState) ∧
    (({ state0 with
        brain_log := [{ step_type := .thinking, content := "a" }],
        iteration_count := 2 } : CognitiveState).iteration_count
      = state0.iteration_count + 2) := by
  constructor
  · rfl
  · exact c3_iteration_count_increment.2 0
      [(fun s => Except.ok (s.log_thinking "a" none 0), "t1"),
       (fun s => Except.ok s, "t2")] state0 _ rfl

-- ─────────────────────────────────────────────────────────────────────────
-- C5: evolve logs and re-raises failures
-- ─────────────────────────────────────────────────────────────────────────

/-- Claim C5: when the transition function raises, `evolve` appends exactly
one ERROR entry describing the failure to the caller-observable state and
re-raises the same failure: the outcome is an error carrying the original
exception message, never a success (the engine does not swallow errors),
and the ERROR entry is on the state carried with it. -/
theorem c5_evolve_error_logged_and_reraised (now : Nat) (s : CognitiveState)
    (f : TransitionFn) (name e : String) (h : f s = .error e) :
    ∃ es : CognitiveState,
      DSEEEngine.evolve now s f name = .error (e, es)
      ∧ es.brain_log = s.brain_log ++
          [{ step_type := .error,
             content := "Transition \x27" ++ name ++ "\x27 failed: " ++ e,
             timestamp := now }]
      ∧ es.error = some ("Transition \x27" ++ name ++ "\x27 failed: " ++ e)
      ∧ ∀ s2 : CognitiveState, DSEEEngine.evolve now s f name ≠ .ok s2 := by
  refine ⟨(s.log_error ("Transition \x27" ++ name ++ "\x27 failed: " ++ e) none now),
    ?_, rfl, rfl, ?_⟩
  · unfold DSEEEngine.evolve
    rw [h]
  · intro s2
    unfold DSEEEngine.evolve
    rw [h]
    simp

/-- Witness for C5 at a concrete always-failing transition. -/
theorem c5_evolve_error_logged_and_reraised_witness :
    ∃ es : CognitiveState,
      DSEEEngine.evolve 7 state0 (fun _ => Except.error "boom") "step" =
        Except.error ("boom", es)
      ∧ es.brain_log = state0.brain_log ++
          [{ step_type := .error,
             content := "Transition \x27step\x27 failed: boom",
             timestamp := 7 }]
      ∧ es.error = some "Transition \x27step\x27 failed: boom"
      ∧ ∀ s2 : CognitiveState,
          DSEEEngine.evolve 7 state0 (fun _ => Except.error "boom") "step" ≠
            Except.ok s2 :=
  c5_evolve_error_logged_and_reraised 7 state0 (fun _ => Except.error "boom")
    "step" "boom" rfl

-- ─────────────────────────────────────────────────────────────────────────
-- C4: the audit log only grows
-- ─────────────────────────────────────────────────────────────────────────

/-- State `t` has an audit log extending the one of `s`: the existing
entries survive, in order,
as an initial segment. -/
def extends_log (s t : CognitiveState) : Prop :=
  ∃ u, t.brain_log = s.brain_log ++ u

theorem extends_log_refl (s : CognitiveState) : extends_log s s :=
  ⟨[], by simp⟩

theorem extends_log_trans {s t u : CognitiveState}
    (h1 : extends_log s t) (h2 : extends_log t u) : extends_log s u := by
  obtain ⟨a, ha⟩ := h1
  obtain ⟨b, hb⟩ := h2
  exact ⟨a ++ b, by rw [hb, ha, List.append_assoc]⟩

theorem extends_log_length {s t : CognitiveState} (h : extends_log s t) :
    s.brain_log.length ≤ t.brain_log.length := by
  obtain ⟨a, ha⟩ := h
  simp [ha]

/-- The engine itself never shrinks the audit log: if the transition
function preserves the log as a prefix, so does `evolve`, on both the
success and the failure outcome. -/
theorem evolve_extends_log (now : Nat) (s : CognitiveState) (f : TransitionFn)
    (name : String) (h : ∀ t, f s = .ok t → extends_log s t) :
    extends_log s (evolve_out (DSEEEngine.evolve now s f name)) := by
  cases hf : f s with
  | ok t =>
      have ht := h t hf
      obtain ⟨u, hu⟩ := ht
      exact ⟨u, by simp [DSEEEngine.evolve, hf, evolve_out, hu]⟩
  | error e =>
      exact ⟨[{ step_type := .error,
                content := "Transition \x27" ++ name ++ "\x27 failed: " ++ e,
                timestamp := now }],
        by simp [DSEEEngine.evolve, hf, evolve_out, CognitiveState.log_error]⟩

/-- Prefix preservation for a whole batch of log-preserving transitions,
including a batch aborted by a failure. -/
theorem batch_evolve_extends_log (now : Nat) (ts : List (TransitionFn × String)) :
    ∀ s : CognitiveState,
      (∀ p ∈ ts, ∀ x t : CognitiveState, p.1 x = .ok t → extends_log x t) →
      extends_log s (evolve_out (DSEEEngine.batch_evolve now s ts)) := by
  induction ts with
  | nil => intro s _; exact extends_log_refl s
  | cons p rest ih =>
      intro s h
      obtain ⟨f, name⟩ := p
      have hstep : extends_log s (evolve_out (DSEEEngine.evolve now s f name)) :=
        evolve_extends_log now s f name
          (fun t ht => h (f, name) (by simp) s t ht)
      cases he : DSEEEngine.evolve now s f name with
      | ok s2 =>
          have h2 : extends_log s s2 := by rw [he] at hstep; exact hstep
          have h3 := ih s2 (fun q hq => h q (by simp [hq]))
          have : DSEEEngine.batch_evolve now s ((f, name) :: rest) =
              DSEEEngine.batch_evolve now s2 rest := by
            simp [DSEEEngine.batch_evolve, he]
          rw [this]
          exact extends_log_trans h2 h3
      | error e =>
          have : DSEEEngine.batch_evolve now s ((f, name) :: rest) = .error e := by
            simp [DSEEEngine.batch_evolve, he]
          rw [this]
          rw [he] at hstep
          exact hstep

/-- Claim C4: the audit log only grows and is never reordered.  Each log_X
helper appends exactly one entry after the existing ones; `mark_visited`,
`request_hitl`, `complete` and `add_genui` leave the log untouched; and an
`evolve` call whose transition function preserves the log as a prefix
preserves it too (also on failure), so over any batch of such evolve calls
the log extends the initial one and its length never decreases. -/
theorem c4_audit_log_append_only :
    (∀ (s : CognitiveState) (c : String) (a : Option AgentSlot) (now : Nat),
      (s.log_thinking c a now).brain_log = s.brain_log ++
        [{ step_type := .thinking, content := c, agent_slot := a, timestamp := now }])
    ∧ (∀ (s : CognitiveState) (tn : String) (ti : List (String × String))
        (a : Option AgentSlot) (now : Nat),
      (s.log_action tn ti a now).brain_log = s.brain_log ++
        [{ step_type := .action, content := "Executing tool: " ++ tn,
           agent_slot := a, tool_name := some tn, tool_input := some ti,
           timestamp := now }])
    ∧ (∀ (s : CognitiveState) (c : String) (tn : Option String)
        (out : Option String) (a : Option AgentSlot) (now : Nat),
      (s.log_observation c tn out a now).brain_log = s.brain_log ++
        [{ step_type := .observation, content := c, agent_slot := a,
           tool_name := tn, tool_output := out, timestamp := now }])
    ∧ (∀ (s : CognitiveState) (c : String) (a : Option AgentSlot) (now : Nat),
      (s.log_decision c a now).brain_log = s.brain_log ++
        [{ step_type := .decision, content := c, agent_slot := a, timestamp := now }])
    ∧ (∀ (s : CognitiveState) (c : String) (a : Option AgentSlot) (now : Nat),
      (s.log_error c a now).brain_log = s.brain_log ++
        [{ step_type := .error, content := c, agent_slot := a, timestamp := now }])
    ∧ (∀ (s : CognitiveState) (a : AgentSlot) (now : Nat),
      (s.mark_visited a now).brain_log = s.brain_log)
    ∧ (∀ (s : CognitiveState) (r : String) (now : Nat),
      (s.request_hitl r now).brain_log = s.brain_log)
    ∧ (∀ (s : CognitiveState) (r : String) (now : Nat),
      (s.complete r now).brain_log = s.brain_log)
    ∧ (∀ (s : CognitiveState) (c : String) (d : List (String × String)) (now : Nat),
      (s.add_genui c d now).brain_log = s.brain_log)
    ∧ (∀ (now : Nat) (s : CognitiveState) (f : TransitionFn) (name : String),
      (∀ t, f s = .ok t → extends_log s t) →
      extends_log s (evolve_out (DSEEEngine.evolve now s f name)))
    ∧ (∀ (now : Nat) (ts : List (TransitionFn × String)) (s : CognitiveState),
      (∀ p ∈ ts, ∀ x t : CognitiveState, p.1 x = .ok t → extends_log x t) →
      extends_log s (evolve_out (DSEEEngine.batch_evolve now s ts))
      ∧ s.brain_log.length ≤
          (evolve_out (DSEEEngine.batch_evolve now s ts)).brain_log.length) := by
  refine ⟨fun s c a now => rfl, fun s tn ti a now => rfl,
    fun s c tn out a now => rfl, fun s c a now => rfl, fun s c a now => rfl,
    ?_, fun s r now => rfl, fun s r now => rfl, fun s c d now => rfl,
    evolve_extends_log, ?_⟩
  · intro s a now
    by_cases h : a ∈ s.visited_agents <;> simp [CognitiveState.mark_visited, h]
  · intro now ts s h
    have he := batch_evolve_extends_log now ts s h
    exact ⟨he, extends_log_length he⟩

/-- Witness for C4: a concrete batch of one log-appending transition
extends the initial audit log. -/
theorem c4_audit_log_append_only_witness :
    extends_log state0 (evolve_out (DSEEEngine.batch_evolve 0 state0
      [(fun s => Except.ok (s.log_thinking "x" none 0), "t")]))
    ∧ state0.brain_log.length ≤
        (evolve_out (DSEEEngine.batch_evolve 0 state0
          [(fun s => Except.ok (s.log_thinking "x" none 0), "t")])).brain_log.length := by
  have h := c4_audit_log_append_only
  refine h.2.2.2.2.2.2.2.2.2.2 0
    [(fun s => Except.ok (s.log_thinking "x" none 0), "t")] state0 ?_
  intro p hp x t ht
  simp only [List.mem_singleton] at hp
  subst hp
  simp only [Except.ok.injEq] at ht
  subst ht
  exact ⟨_, rfl⟩

-- ─────────────────────────────────────────────────────────────────────────
-- C10: mark_visited is idempotent, visited_agents behaves as a set
-- ─────────────────────────────────────────────────────────────────────────

/-- Claim C10: `mark_visited` is idempotent on `visited_agents`: marking
the same agent twice equals marking it once; an agent already present is
never appended again; a fresh agent is appended once at the end; and the
no-duplicates property is preserved. -/
theorem c10_mark_visited_idempotent :
    (∀ (s : CognitiveState) (a : AgentSlot) (n1 n2 : Nat),
      ((s.mark_visited a n1).mark_visited a n2).visited_agents
        = (s.mark_visited a n1).visited_agents)
    ∧ (∀ (s : CognitiveState) (a : AgentSlot) (n : Nat), a ∈ s.visited_agents →
      (s.mark_visited a n).visited_agents = s.visited_agents)
    ∧ (∀ (s : CognitiveState) (a : AgentSlot) (n : Nat), a ∉ s.visited_agents →
      (s.mark_visited a n).visited_agents = s.visited_agents ++ [a])
    ∧ (∀ (s : CognitiveState) (a : AgentSlot) (n : Nat),
      s.visited_agents.Nodup → (s.mark_visited a n).visited_agents.Nodup) := by
  have mem_after : ∀ (s : CognitiveState) (a : AgentSlot) (n : Nat),
      a ∈ (s.mark_visited a n).visited_agents := by
    intro s a n
    by_cases h : a ∈ s.visited_agents <;> simp [CognitiveState.mark_visited, h]
  refine ⟨?_, ?_, ?_, ?_⟩
  · intro s a n1 n2
    have key : ∀ (t : CognitiveState) (n : Nat), a ∈ t.visited_agents →
        (t.mark_visited a n).visited_agents = t.visited_agents := by
      intro t n ht
      simp [CognitiveState.mark_visited, ht]
    exact key _ n2 (mem_after s a n1)
  · intro s a n h
    simp [CognitiveState.mark_visited, h]
  · intro s a n h
    simp [CognitiveState.mark_visited, h]
  · intro s a n h
    by_cases hm : a ∈ s.visited_agents
    · simpa [CognitiveState.mark_visited, hm] using h
    · simp [CognitiveState.mark_visited, hm, List.nodup_append, h, hm]

/-- Witness for C10 at a concrete state that already visited admisiones. -/
theorem c10_mark_visited_idempotent_witness :
    (({ state0 with visited_agents := [.admisiones] } : CognitiveState).mark_visited
        .admisiones 1).visited_agents = [AgentSlot.admisiones] :=
  c10_mark_visited_idempotent.2.1
    { state0 with visited_agents := [.admisiones] } .admisiones 1 (by decide)

-- ─────────────────────────────────────────────────────────────────────────
-- Supervisor router (src/app/core/supervisor.py, supervisor_node)
-- ─────────────────────────────────────────────────────────────────────────

/-- The routing choice of the structured LLM output: one of the five agent
slots or the literal "none" asking for clarification. -/
inductive RouterChoice where
  | slot (a : AgentSlot)
  | clarify
deriving DecidableEq, Repr

/-- The name under which a choice is logged. -/
def choice_name : RouterChoice → String
  | .slot a => a.value
  | .clarify => "none"

/-- Structured routing decision (`RouterDecision`); `confidence` (a float
in [0,1]) is modelled in hundredths. -/
structure RouterDecision where
  selected_agent : RouterChoice
  confidence_pct : Nat
  reasoning : String
  requires_collaboration : Bool := false
  secondary_agents : List String := []
deriving DecidableEq, Repr

/-- Rendering of the confidence as in the f-string `{confidence:.2f}`. -/
def fmt_confidence (pct : Nat) : String :=
  toString (pct / 100) ++ "." ++
    (if pct % 100 < 10 then "0" ++ toString (pct % 100) else toString (pct % 100))

/-- Node `supervisor_node`: routes the request.  The external classification
call is abstracted as an `Except` argument (`Except.error` models an
exception raised by the LLM call).  Returns the node-local (mutated) state
together with the update dictionary handed back to LangGraph. -/
def supervisor_node (now : Nat) (classify : Except String RouterDecision)
    (s : CognitiveState) : CognitiveState × StateUpdate :=
  let st := s.log_thinking
    ("Analyzing user request: " ++ s.user_message.take 100 ++ "...") none now
  match classify with
  | .ok decision =>
      let st2 := st.log_decision
        ("Routing to: " ++ choice_name decision.selected_agent
          ++ " (confidence: " ++ fmt_confidence decision.confidence_pct
          ++ ") - " ++ decision.reasoning) none now
      match decision.selected_agent with
      | .clarify =>
          (st2,
           { next_agent := some none,
             current_response := some "No estoy seguro de cómo ayudarte con esa solicitud. ¿Podrías proporcionar más detalles sobre qué departamento necesitas?",
             brain_log := some st2.brain_log })
      | .slot a =>
          let chain := a ::
            (if decision.requires_collaboration then
              decision.secondary_agents.filterMap parse_agent_slot
            else [])
          (st2,
           { next_agent := some (some a),
             delegation_chain := some chain,
             brain_log := some st2.brain_log })
  | .error e =>
      let st2 := st.log_error ("Routing error: " ++ e) none now
      (st2,
       { next_agent := some none,
         error := some (some e),
         brain_log := some st2.brain_log })

/-- Routing a state with no next agent never names a specialist. -/
theorem route_to_agent_no_next_agent (cfg : Settings) (s : CognitiveState)
    (h : s.next_agent = none) :
    route_to_agent cfg s = "end" ∨ route_to_agent cfg s = "hitl_checkpoint" := by
  by_cases h1 : truthy_str s.error <;> by_cases h2 : s.requires_hitl <;>
    by_cases h3 : s.is_complete <;>
    by_cases h4 : s.iteration_count ≥ cfg.max_agent_iterations <;>
    simp [route_to_agent, h, h1, h2, h3, h4]

/-- Routing a state with no next agent and no pending HITL request always
ends the run. -/
theorem route_to_agent_no_next_no_hitl (cfg : Settings) (s : CognitiveState)
    (h : s.next_agent = none) (h2 : s.requires_hitl = false) :
    route_to_agent cfg s = "end" := by
  by_cases h1 : truthy_str s.error <;> by_cases h3 : s.is_complete <;>
    by_cases h4 : s.iteration_count ≥ cfg.max_agent_iterations <;>
    simp [route_to_agent, h, h1, h2, h3, h4]

-- ─────────────────────────────────────────────────────────────────────────
-- HITL subsystem (src/app/security/hitl.py, src/app/core/graph.py)
-- ─────────────────────────────────────────────────────────────────────────

/-- The `context` blob stored with an approval request. -/
structure HITLContext where
  user_message : String
  visited_agents : List AgentSlot
  current_response : String
  okr_context : Option OKRContext
deriving DecidableEq, Repr

/-- The `proposed_action` blob stored with an approval request. -/
structure HITLProposedAction where
  response : String
  brain_log_summary : List String
deriving DecidableEq, Repr

/-- An approval-request row (`hitl_requests` table / `HITLRequest`). -/
structure HITLRequestData where
  id : String
  run_id : String
  requested_by : Option String
  reason : String
  context : HITLContext
  proposed_action : HITLProposedAction
  status : HITLStatus
  expires_at : Nat
deriving DecidableEq, Repr

/-- Function `create_hitl_request`: build and insert the approval request.  Returns
none when the state does not require HITL, has no truthy reason, or the
database insert fails (`insert_ok = false`).  `requested_by` abstracts the
agent-id lookup; `new_id` the database-assigned row id.  Time is modelled
in hours, so the expiry is `now` plus the configured timeout. -/
def create_hitl_request (cfg : Settings) (now : Nat) (requested_by : Option String)
    (new_id : String) (insert_ok : Bool) (s : CognitiveState) :
    Option HITLRequestData :=
  if s.requires_hitl = false ∨ truthy_str s.hitl_reason = false then none
  else if insert_ok then
    some
      { id := new_id
        run_id := s.run_id
        requested_by := requested_by
        reason := s.hitl_reason.getD ""
        context :=
          { user_message := s.user_message
            visited_agents := s.visited_agents
            current_response := s.current_response
            okr_context := s.okr_context }
        proposed_action :=
          { response := s.current_response
            brain_log_summary :=
              ((s.brain_log.drop (s.brain_log.length - 5)).map
                (fun e => e.content)) }
        status := HITLStatus.pending
        expires_at := now + cfg.hitl_timeout_hours }
  else none

/-- Node `hitl_checkpoint_node`: the suspend node of the graph.  Logs the
pending approval, creates the approval request from the (mutated) state,
and returns the update dictionary: the request id, `is_complete := true`
("pause execution until approval") and a pause message as the current
response.  Returns the node-local state, the update, and the created
request. -/
def hitl_checkpoint_node (cfg : Settings) (now : Nat) (requested_by : Option String)
    (new_id : String) (insert_ok : Bool) (s : CognitiveState) :
    CognitiveState × StateUpdate × Option HITLRequestData :=
  let st := s.log_decision
    ("Esperando aprobación humana: " ++ opt_repr s.hitl_reason) none now
  let req := create_hitl_request cfg now requested_by new_id insert_ok st
  (st,
   { hitl_request_id := some (req.map (fun r => r.id))
     is_complete := some true
     current_response := some
       ("⏸️ Esta acción requiere aprobación humana: " ++ opt_repr s.hitl_reason)
     brain_log := some st.brain_log },
   req)

/-- A concrete state flagged for human approval. -/
def c2_state : CognitiveState :=
  { state0 with requires_hitl := true, hitl_reason := some "factura > $1,000,000" }

-- ─────────────────────────────────────────────────────────────────────────
-- C6: router behaviour on classification failure
-- ─────────────────────────────────────────────────────────────────────────

/-- Claim C6 as universally stated is false: when the classification call
raises an exception whose message is the empty string on a state whose
`requires_hitl` flag is already set, the merged error channel is the
falsy empty string, so the executor routes to "hitl_checkpoint", not
"end". -/
theorem c6_claim_counterexample :
    route_to_agent default_settings
      (apply_update { state0 with requires_hitl := true }
        (supervisor_node 0 (Except.error "") { state0 with requires_hitl := true }).2)
      = "hitl_checkpoint"
    ∧ ("hitl_checkpoint" : String) ≠ "end" := by
  exact ⟨rfl, by decide⟩

/-- Claim C6 (amended): on classification failure the router appends an
ERROR audit entry (after its THINKING entry), returns `next_agent` unset
together with the error flag set to the failure message, and the executor
never routes to a specialist agent afterwards; it halts at "end" whenever
the failure message is non-empty or no HITL request is pending. -/
theorem c6_supervisor_failure_amended (cfg : Settings) (now : Nat) (e : String)
    (s : CognitiveState) :
    (supervisor_node now (Except.error e) s).1.brain_log = s.brain_log ++
        [{ step_type := .thinking,
           content := "Analyzing user request: " ++ s.user_message.take 100 ++ "...",
           timestamp := now },
         { step_type := .error, content := "Routing error: " ++ e,
           timestamp := now }]
    ∧ (supervisor_node now (Except.error e) s).2.next_agent = some none
    ∧ (supervisor_node now (Except.error e) s).2.error = some (some e)
    ∧ (apply_update s (supervisor_node now (Except.error e) s).2).next_agent = none
    ∧ (apply_update s (supervisor_node now (Except.error e) s).2).error = some e
    ∧ (e ≠ "" →
        route_to_agent cfg
          (apply_update s (supervisor_node now (Except.error e) s).2) = "end")
    ∧ (s.requires_hitl = false →
        route_to_agent cfg
          (apply_update s (supervisor_node now (Except.error e) s).2) = "end")
    ∧ (route_to_agent cfg
          (apply_update s (supervisor_node now (Except.error e) s).2) = "end"
        ∨ route_to_agent cfg
          (apply_update s (supervisor_node now (Except.error e) s).2)
            = "hitl_checkpoint") := by
  refine ⟨?_, rfl, rfl, rfl, rfl, ?_, ?_, ?_⟩
  · simp [supervisor_node, CognitiveState.log_thinking, CognitiveState.log_error]
  · intro he
    have hm : (apply_update s (supervisor_node now (Except.error e) s).2).error
        = some e := rfl
    simp [route_to_agent, truthy_str, hm, he]
  · intro hr
    refine route_to_agent_no_next_no_hitl cfg _ rfl ?_
    simp [supervisor_node, apply_update, CognitiveState.log_thinking,
      CognitiveState.log_error, hr]
  · exact route_to_agent_no_next_agent cfg _ rfl

/-- Witness for the amended C6 at a concrete failure with message "boom". -/
theorem c6_supervisor_failure_amended_witness :
    (supervisor_node 3 (Except.error "boom") state0).1.brain_log =
        state0.brain_log ++
        [{ step_type := .thinking,
           content := "Analyzing user request: " ++ state0.user_message.take 100 ++ "...",
           timestamp := 3 },
         { step_type := .error, content := "Routing error: boom", timestamp := 3 }]
    ∧ route_to_agent default_settings
        (apply_update state0 (supervisor_node 3 (Except.error "boom") state0).2)
        = "end" := by
  have h := c6_supervisor_failure_amended default_settings 3 "boom" state0
  exact ⟨h.1, h.2.2.2.2.2.1 (by decide)⟩

-- ─────────────────────────────────────────────────────────────────────────
-- C2: suspension flow on requires_hitl
-- ─────────────────────────────────────────────────────────────────────────

/-- Claim C2 as stated is false in its "returns control to the caller
without marking the run finished" part: the suspend node's returned update
sets `is_complete := true`, so the merged state is marked complete. -/
theorem c2_claim_counterexample :
    (hitl_checkpoint_node default_settings 0 none "req1" true c2_state).2.1.is_complete
      = some true
    ∧ (apply_update c2_state
        (hitl_checkpoint_node default_settings 0 none "req1" true c2_state).2.1).is_complete
      = true := by
  exact ⟨rfl, rfl⟩

/-- On a state that requires HITL with a truthy reason, and a successful
insert, `create_hitl_request` yields a pending request with the configured
expiry, the database-assigned id and the state's reason. -/
theorem create_hitl_request_spec (cfg : Settings) (now : Nat) (rb : Option String)
    (new_id : String) (t : CognitiveState) (v : String)
    (h1 : t.requires_hitl = true) (h2 : t.hitl_reason = some v) (h3 : v ≠ "") :
    ∃ r : HITLRequestData,
      create_hitl_request cfg now rb new_id true t = some r
      ∧ r.id = new_id ∧ r.reason = v ∧ r.status = HITLStatus.pending
      ∧ r.expires_at = now + cfg.hitl_timeout_hours := by
  have hcond : ¬(t.requires_hitl = false ∨ truthy_str t.hitl_reason = false) := by
    simp [h1, h2, truthy_str, h3]
  unfold create_hitl_request
  rw [if_neg hcond, if_pos rfl]
  exact ⟨_, rfl, rfl, by simp [h2], rfl, rfl⟩

/-- Claim C2 (amended): for every state flagged `requires_hitl` with a
truthy reason and no truthy error, the executor routes to the suspend
node; the suspend node creates an Approval Request with status "pending"
and an expiry strictly in the future (given a positive configured
timeout), carrying the state's reason; its returned update records the
request id and marks the run complete (`is_complete := true`) with a pause
message — rather than leaving the run unfinished — and after the merge the
state still carries `requires_hitl` and the approval-request id while the
node sets no final response itself. -/
theorem c2_hitl_suspend_amended (cfg : Settings) (now : Nat) (rb : Option String)
    (new_id : String) (s : CognitiveState)
    (hh : s.requires_hitl = true) (herr : truthy_str s.error = false)
    (hr : truthy_str s.hitl_reason = true) (ht : 0 < cfg.hitl_timeout_hours) :
    route_to_agent cfg s = "hitl_checkpoint"
    ∧ ∃ r : HITLRequestData,
        (hitl_checkpoint_node cfg now rb new_id true s).2.2 = some r
        ∧ r.status = HITLStatus.pending
        ∧ now < r.expires_at
        ∧ r.id = new_id
        ∧ s.hitl_reason = some r.reason
        ∧ (hitl_checkpoint_node cfg now rb new_id true s).2.1.hitl_request_id
            = some (some r.id)
        ∧ (hitl_checkpoint_node cfg now rb new_id true s).2.1.is_complete = some true
        ∧ (apply_update s
            (hitl_checkpoint_node cfg now rb new_id true s).2.1).hitl_request_id
            = some r.id
        ∧ (apply_update s
            (hitl_checkpoint_node cfg now rb new_id true s).2.1).requires_hitl = true
        ∧ (apply_update s
            (hitl_checkpoint_node cfg now rb new_id true s).2.1).final_response
            = s.final_response := by
  obtain ⟨v, hv, hv2⟩ : ∃ v, s.hitl_reason = some v ∧ v ≠ "" := by
    cases hs : s.hitl_reason with
    | none => rw [hs] at hr; simp [truthy_str] at hr
    | some v =>
        rw [hs] at hr
        simp only [truthy_str, decide_not] at hr
        exact ⟨v, rfl, by simpa using hr⟩
  have h1 : (s.log_decision
      ("Esperando aprobación humana: " ++ opt_repr s.hitl_reason) none
      now).requires_hitl = true := hh
  have h2 : (s.log_decision
      ("Esperando aprobación humana: " ++ opt_repr s.hitl_reason) none
      now).hitl_reason = some v := hv
  obtain ⟨r, hrq, hid, hreason, hstatus, hexp⟩ :=
    create_hitl_request_spec cfg now rb new_id _ v h1 h2 hv2
  have hreq : (hitl_checkpoint_node cfg now rb new_id true s).2.2 = some r := hrq
  have hupd : (hitl_checkpoint_node cfg now rb new_id true s).2.1.hitl_request_id
      = some ((create_hitl_request cfg now rb new_id true
        (s.log_decision
          ("Esperando aprobación humana: " ++ opt_repr s.hitl_reason) none
          now)).map (fun q => q.id)) := rfl
  have hmerge : (apply_update s
      (hitl_checkpoint_node cfg now rb new_id true s).2.1).hitl_request_id
      = (create_hitl_request cfg now rb new_id true
        (s.log_decision
          ("Esperando aprobación humana: " ++ opt_repr s.hitl_reason) none
          now)).map (fun q => q.id) := rfl
  refine ⟨by simp [route_to_agent, herr, hh], r, hreq, hstatus, ?_, hid, ?_,
    ?_, rfl, ?_, hh, rfl⟩
  · rw [hexp]; omega
  · rw [hv, hreason]
  · rw [hupd, hrq]
    simp
  · rw [hmerge, hrq]
    simp

/-- Witness for the amended C2 at a concrete flagged state. -/
theorem c2_hitl_suspend_amended_witness :
    route_to_agent default_settings c2_state = "hitl_checkpoint"
    ∧ ∃ r : HITLRequestData,
        (hitl_checkpoint_node default_settings 5 none "req1" true c2_state).2.2 = some r
        ∧ r.status = HITLStatus.pending
        ∧ 5 < r.expires_at
        ∧ r.id = "req1"
        ∧ c2_state.hitl_reason = some r.reason
        ∧ (hitl_checkpoint_node default_settings 5 none "req1" true c2_state).2.1.hitl_request_id
            = some (some r.id)
        ∧ (hitl_checkpoint_node default_settings 5 none "req1" true c2_state).2.1.is_complete
            = some true
        ∧ (apply_update c2_state
            (hitl_checkpoint_node default_settings 5 none "req1" true c2_state).2.1).hitl_request_id
            = some r.id
        ∧ (apply_update c2_state
            (hitl_checkpoint_node default_settings 5 none "req1" true c2_state).2.1).requires_hitl
            = true
        ∧ (apply_update c2_state
            (hitl_checkpoint_node default_settings 5 none "req1" true c2_state).2.1).final_response
            = c2_state.final_response :=
  c2_hitl_suspend_amended default_settings 5 none "req1" c2_state rfl rfl rfl
    (by decide)

-- ─────────────────────────────────────────────────────────────────────────
-- Specialist node tool handling (src/app/agents/base.py)
-- ─────────────────────────────────────────────────────────────────────────

/-- A tool call requested by the LLM response. -/
structure ToolCall where
  name : String
  args : List (String × String)
deriving DecidableEq, Repr

/-- The LLM response consumed by `BaseAgentNode.process`: its text content
and the tool calls it requests. -/
structure LLMResponse where
  content : String
  tool_calls : List ToolCall
deriving DecidableEq, Repr

/-- The agent's tool table: name together with the tool's behaviour; an
`Except.error` result models an exception raised by the invocation. -/
def ToolTable := List (String × (List (String × String) → Except String String))

/-- Method `BaseAgentNode._process_tool_calls`: for each call, log an ACTION
entry, look the tool up by name, and log an OBSERVATION on success, an
ERROR on a raised invocation failure, or an ERROR when the tool is
unknown; in every case processing continues with the remaining calls. -/
def process_tool_calls (slot : AgentSlot) (tools : ToolTable) (now : Nat)
    (s : CognitiveState) : List ToolCall → CognitiveState
  | [] => s
  | c :: rest =>
      let st := s.log_action c.name c.args (some slot) now
      let st2 :=
        match tools.find? (fun t => t.1 == c.name) with
        | some t =>
            match t.2 c.args with
            | .ok r =>
                st.log_observation ("Resultado de " ++ c.name) (some c.name)
                  (some r) (some slot) now
            | .error e =>
                st.log_error ("Error en " ++ c.name ++ ": " ++ e) (some slot) now
        | none =>
            st.log_error ("Herramienta no encontrada: " ++ c.name) (some slot) now
      process_tool_calls slot tools now st2 rest

/-- The non-raising path of `BaseAgentNode.process`: log the initial
THINKING entry, process the response's tool calls (if any), log the
completion DECISION, and return the update dictionary: the response
content, no next agent, `is_complete := true`, the accumulated brain log
and the appended message.  (The agent display name and the measured
duration are passed in; the LLM call itself is the `resp` argument.) -/
def agent_process_success (slot : AgentSlot) (agent_name : String)
    (tools : ToolTable) (now dur : Nat) (resp : LLMResponse)
    (s : CognitiveState) : CognitiveState × StateUpdate :=
  let st := s.log_thinking
    ("Iniciando procesamiento en " ++ agent_name ++ "...") (some slot) now
  let st2 :=
    if resp.tool_calls.isEmpty then st
    else process_tool_calls slot tools now st resp.tool_calls
  let st3 := st2.log_decision
    ("Respuesta generada en " ++ toString dur ++ "ms") (some slot) now
  (st3,
   { current_response := some resp.content
     next_agent := some none
     is_complete := some true
     brain_log := some st3.brain_log
     messages := [resp.content] })

-- ─────────────────────────────────────────────────────────────────────────
-- C7: tool-invocation failures are logged and do not fail the run
-- ─────────────────────────────────────────────────────────────────────────

/-- Claim C7: a tool-invocation failure inside a specialist node is caught
and logged as an ERROR audit entry (after the ACTION entry) and processing
continues with the remaining tool calls; the node still produces its
(degraded) response with `is_complete := true`, and its returned update
never touches the error channel, so the merged state keeps the prior
`error` and the decide-next function is not forced to "end" with an
error — with no prior error and no pending HITL it ends via completion. -/
theorem c7_tool_failure_degraded (slot : AgentSlot) (tools : ToolTable)
    (now : Nat) (s : CognitiveState) (c : ToolCall) (rest : List ToolCall)
    (tp : String × (List (String × String) → Except String String)) (e : String)
    (hfind : tools.find? (fun t => t.1 == c.name) = some tp)
    (hfail : tp.2 c.args = Except.error e) :
    (process_tool_calls slot tools now s (c :: rest)
      = process_tool_calls slot tools now
          ((s.log_action c.name c.args (some slot) now).log_error
            ("Error en " ++ c.name ++ ": " ++ e) (some slot) now) rest
    ∧ ((s.log_action c.name c.args (some slot) now).log_error
          ("Error en " ++ c.name ++ ": " ++ e) (some slot) now).brain_log
        = s.brain_log ++
          [{ step_type := .action, content := "Executing tool: " ++ c.name,
             agent_slot := some slot, tool_name := some c.name,
             tool_input := some c.args, timestamp := now },
           { step_type := .error, content := "Error en " ++ c.name ++ ": " ++ e,
             agent_slot := some slot, timestamp := now }])
    ∧ ∀ (agent_name : String) (dur : Nat) (resp : LLMResponse),
        (agent_process_success slot agent_name tools now dur resp s).2.error = none
        ∧ (agent_process_success slot agent_name tools now dur resp s).2.is_complete
            = some true
        ∧ (agent_process_success slot agent_name tools now dur resp s).2.current_response
            = some resp.content
        ∧ (apply_update s
            (agent_process_success slot agent_name tools now dur resp s).2).error
            = s.error
        ∧ (s.error = none → s.requires_hitl = false →
            route_to_agent default_settings
              (apply_update s
                (agent_process_success slot agent_name tools now dur resp s).2)
              = "end") := by
  refine ⟨⟨?_, ?_⟩, ?_⟩
  · simp only [process_tool_calls, hfind, hfail]
  · simp [CognitiveState.log_action, CognitiveState.log_error]
  · intro agent_name dur resp
    refine ⟨rfl, rfl, rfl, rfl, ?_⟩
    intro herr hhitl
    have h1 : (apply_update s
        (agent_process_success slot agent_name tools now dur resp s).2).error
        = s.error := rfl
    have h2 : (apply_update s
        (agent_process_success slot agent_name tools now dur resp s).2).is_complete
        = true := rfl
    have h3 : (apply_update s
        (agent_process_success slot agent_name tools now dur resp s).2).requires_hitl
        = s.requires_hitl := rfl
    simp [route_to_agent, truthy_str, h1, h2, h3, herr, hhitl]

/-- Witness for C7: a concrete node with one failing tool call logs the
failure, continues, and completes the run without setting the error
channel. -/
theorem c7_tool_failure_degraded_witness :
    (process_tool_calls .finanzas [("cartera", fun _ => Except.error "down")] 2
        state0 [{ name := "cartera", args := [] }]
      = process_tool_calls .finanzas [("cartera", fun _ => Except.error "down")] 2
          ((state0.log_action "cartera" [] (some .finanzas) 2).log_error
            "Error en cartera: down" (some .finanzas) 2) []
    ∧ ((state0.log_action "cartera" [] (some .finanzas) 2).log_error
          "Error en cartera: down" (some .finanzas) 2).brain_log
        = state0.brain_log ++
          [{ step_type := .action, content := "Executing tool: cartera",
             agent_slot := some .finanzas, tool_name := some "cartera",
             tool_input := some [], timestamp := 2 },
           { step_type := .error, content := "Error en cartera: down",
             agent_slot := some .finanzas, timestamp := 2 }])
    ∧ ∀ (agent_name : String) (dur : Nat) (resp : LLMResponse),
        (agent_process_success .finanzas agent_name
          [("cartera", fun _ => Except.error "down")] 2 dur resp state0).2.error = none
        ∧ (agent_process_success .finanzas agent_name
            [("cartera", fun _ => Except.error "down")] 2 dur resp state0).2.is_complete
            = some true
        ∧ (agent_process_success .finanzas agent_name
            [("cartera", fun _ => Except.error "down")] 2 dur resp state0).2.current_response
            = some resp.content
        ∧ (apply_update state0
            (agent_process_success .finanzas agent_name
              [("cartera", fun _ => Except.error "down")] 2 dur resp state0).2).error
            = state0.error
        ∧ (state0.error = none → state0.requires_hitl = false →
            route_to_agent default_settings
              (apply_update state0
                (agent_process_success .finanzas agent_name
                  [("cartera", fun _ => Except.error "down")] 2 dur resp state0).2)
              = "end") :=
  c7_tool_failure_degraded .finanzas [("cartera", fun _ => Except.error "down")]
    2 state0 { name := "cartera", args := [] } []
    ("cartera", fun _ => Except.error "down") "down" rfl rfl

-- ─────────────────────────────────────────────────────────────────────────
-- HITL review (src/app/security/hitl.py, review_hitl_request)
-- ─────────────────────────────────────────────────────────────────────────

/-- A row of the `hitl_requests` table as touched by the review path. -/
structure HITLReviewRow where
  id : String
  run_id : String
  reason : String
  status : HITLStatus
  reviewed_by : Option String := none
  review_notes : Option String := none
  reviewed_at : Option Nat := none
  expires_at : Nat := 0
deriving DecidableEq, Repr

/-- The `update_data` dictionary applied to a row by the review. -/
def hitl_apply_review (status : HITLStatus) (reviewer_id : String)
    (notes : Option String) (now : Nat) (r : HITLReviewRow) : HITLReviewRow :=
  { r with
    status := status
    reviewed_by := some reviewer_id
    review_notes := notes
    reviewed_at := some now }

/-- Function `review_hitl_request`: update every row whose id matches — with no
guard on the current status — and return the first updated row
(`result.data[0]`), or none when no row matched. -/
def review_hitl_request (store : List HITLReviewRow) (request_id : String)
    (status : HITLStatus) (reviewer_id : String) (notes : Option String)
    (now : Nat) : Option HITLReviewRow × List HITLReviewRow :=
  let updated := store.map (fun r =>
    if r.id == request_id then hitl_apply_review status reviewer_id notes now r
    else r)
  (updated.find? (fun r => r.id == request_id), updated)

/-- A concrete pending approval request row. -/
def hitl_row0 : HITLReviewRow :=
  { id := "r1", run_id := "run0", reason := "factura", status := .pending,
    expires_at := 10 }

-- ─────────────────────────────────────────────────────────────────────────
-- C8: approval transitions are NOT first-wins
-- ─────────────────────────────────────────────────────────────────────────

/-- Claim C8 as stated is false: `review_hitl_request` applies the update
unconditionally, so of two successive transition attempts on the same
pending request both succeed — the second observes no conflict and
overwrites the first terminal status. -/
theorem c8_claim_counterexample :
    (review_hitl_request [hitl_row0] "r1" .approved "u1" none 1).1
      = some { hitl_row0 with
          status := .approved
          reviewed_by := some "u1"
          reviewed_at := some 1 }
    ∧ (review_hitl_request
        (review_hitl_request [hitl_row0] "r1" .approved "u1" none 1).2
        "r1" .rejected "u2" none 2).1
      = some { hitl_row0 with
          status := .rejected
          reviewed_by := some "u2"
          reviewed_at := some 2 }
    ∧ (review_hitl_request
        (review_hitl_request [hitl_row0] "r1" .approved "u1" none 1).2
        "r1" .rejected "u2" none 2).2
      = [{ hitl_row0 with
           status := .rejected
           reviewed_by := some "u2"
           reviewed_at := some 2 }] := by
  exact ⟨rfl, rfl, rfl⟩

/-- Claim C8 (amended): the review is last-writer-wins.  Whenever the
store holds a row with the requested id, `review_hitl_request` reports
success with a row carrying the new status and reviewer — regardless of
the stored status, terminal or not — and afterwards every row with that id
carries the new status; no conflict outcome exists. -/
theorem c8_review_last_writer_wins (store : List HITLReviewRow)
    (request_id : String) (status : HITLStatus) (reviewer_id : String)
    (notes : Option String) (now : Nat) (r : HITLReviewRow)
    (hmem : r ∈ store) (hid : r.id = request_id) :
    ∃ r2 : HITLReviewRow,
      (review_hitl_request store request_id status reviewer_id notes now).1 = some r2
      ∧ r2.status = status
      ∧ r2.reviewed_by = some reviewer_id
      ∧ ∀ q ∈ (review_hitl_request store request_id status reviewer_id notes now).2,
          q.id = request_id → q.status = status := by
  have hA : ∀ q ∈ store.map (fun p =>
      if p.id == request_id then hitl_apply_review status reviewer_id notes now p
      else p), q.id = request_id → q.status = status ∧ q.reviewed_by = some reviewer_id := by
    intro q hq hqid
    obtain ⟨p, hp, hpe⟩ := List.mem_map.mp hq
    by_cases hc : p.id = request_id
    · rw [if_pos (by simp [hc])] at hpe
      rw [← hpe]
      exact ⟨rfl, rfl⟩
    · rw [if_neg (by simp [hc])] at hpe
      rw [← hpe] at hqid
      exact absurd hqid hc
  have hmemupd : hitl_apply_review status reviewer_id notes now r ∈ store.map
      (fun p => if p.id == request_id then
        hitl_apply_review status reviewer_id notes now p else p) := by
    refine List.mem_map.mpr ⟨r, hmem, ?_⟩
    rw [if_pos (by simp [hid])]
  have hsome : ((store.map (fun p => if p.id == request_id then
      hitl_apply_review status reviewer_id notes now p else p)).find?
      (fun q => q.id == request_id)).isSome := by
    rw [List.find?_isSome]
    exact ⟨hitl_apply_review status reviewer_id notes now r, hmemupd,
      by simp [hitl_apply_review, hid]⟩
  obtain ⟨r2, hr2⟩ := Option.isSome_iff_exists.mp hsome
  have hr2mem := List.mem_of_find?_eq_some hr2
  have hr2id : r2.id = request_id := by
    have := List.find?_some hr2
    simpa using this
  obtain ⟨hst, hrev⟩ := hA r2 hr2mem hr2id
  refine ⟨r2, ?_, hst, hrev, ?_⟩
  · simpa [review_hitl_request] using hr2
  · intro q hq hqid
    have hq2 : q ∈ store.map (fun p => if p.id == request_id then
        hitl_apply_review status reviewer_id notes now p else p) := by
      simpa [review_hitl_request] using hq
    exact (hA q hq2 hqid).1

/-- Witness for the amended C8 on the concrete pending row. -/
theorem c8_review_last_writer_wins_witness :
    ∃ r2 : HITLReviewRow,
      (review_hitl_request [hitl_row0] "r1" .rejected "u9" none 4).1 = some r2
      ∧ r2.status = .rejected
      ∧ r2.reviewed_by = some "u9"
      ∧ ∀ q ∈ (review_hitl_request [hitl_row0] "r1" .rejected "u9" none 4).2,
          q.id = "r1" → q.status = .rejected :=
  c8_review_last_writer_wins [hitl_row0] "r1" .rejected "u9" none 4 hitl_row0
    (by simp) rfl

-- ─────────────────────────────────────────────────────────────────────────
-- Checkpoint store (src/app/core/checkpointer.py, SupabaseCheckpointer)
-- ─────────────────────────────────────────────────────────────────────────

/-- A row of the `graph_checkpoints` table; the serialized channel blobs
are modelled as one opaque string. -/
structure CheckpointRow where
  thread_id : String
  checkpoint_id : Nat
  channel_values : String
  step : Nat := 0
deriving DecidableEq, Repr

/-- Supabase `upsert` on the (thread_id, checkpoint_id) key: replace the
matching rows if any exist, otherwise append the new row. -/
def checkpoint_upsert (store : List CheckpointRow) (row : CheckpointRow) :
    List CheckpointRow :=
  if store.any (fun r =>
      r.thread_id == row.thread_id && r.checkpoint_id == row.checkpoint_id) then
    store.map (fun r =>
      if r.thread_id == row.thread_id && r.checkpoint_id == row.checkpoint_id then
        row
      else r)
  else store ++ [row]

/-- Method `SupabaseCheckpointer.put`: raise when the config has no thread id,
otherwise upsert the row unconditionally and report success. -/
def checkpointer_put (store : List CheckpointRow) (thread_id : Option String)
    (row : CheckpointRow) : Except String (List CheckpointRow) :=
  match thread_id with
  | none => .error "thread_id required in config"
  | some t => .ok (checkpoint_upsert store { row with thread_id := t })

/-- The checkpoint ids stored for a thread (`select where thread_id = t`). -/
def thread_checkpoint_ids : List CheckpointRow → String → List Nat
  | [], _ => []
  | r :: rest, t =>
      if r.thread_id == t then r.checkpoint_id :: thread_checkpoint_ids rest t
      else thread_checkpoint_ids rest t

/-- The greatest element of a list of ids, none when empty. -/
def max_id : List Nat → Option Nat
  | [] => none
  | n :: rest =>
      match max_id rest with
      | none => some n
      | some m => some (Nat.max n m)

/-- The id of the latest checkpoint of a thread, i.e. what the
`order(checkpoint_id, desc).limit(1)` read of `get_tuple` returns. -/
def latest_checkpoint_id (store : List CheckpointRow) (t : String) : Option Nat :=
  max_id (thread_checkpoint_ids store t)

theorem max_id_append_singleton (l : List Nat) (n : Nat) :
    max_id (l ++ [n]) = some ((max_id l).elim n (fun m => Nat.max m n)) := by
  induction l with
  | nil => simp [max_id]
  | cons a rest ih =>
      simp only [List.cons_append, max_id, List.append_eq]
      rw [ih]
      cases hm : max_id rest with
      | none => simp [hm]
      | some m => simp [hm, Nat.max_assoc]

/-- Replacing rows in place by a row with the same thread and checkpoint
id leaves the per-thread id list unchanged. -/
theorem thread_ids_upsert_replace (row2 : CheckpointRow) (t : String)
    (hth : row2.thread_id = t) :
    ∀ store : List CheckpointRow,
      thread_checkpoint_ids (store.map (fun r =>
        if r.thread_id == row2.thread_id && r.checkpoint_id == row2.checkpoint_id
        then row2 else r)) t
      = thread_checkpoint_ids store t := by
  intro store
  induction store with
  | nil => rfl
  | cons a rest ih =>
      simp only [List.map_cons]
      by_cases hc : (a.thread_id == row2.thread_id &&
          a.checkpoint_id == row2.checkpoint_id) = true
      · have hat : a.thread_id = row2.thread_id :=
          eq_of_beq ((Bool.and_eq_true _ _).mp hc).1
        have hac : a.checkpoint_id = row2.checkpoint_id :=
          eq_of_beq ((Bool.and_eq_true _ _).mp hc).2
        have h2 : (row2.thread_id == t) = true := beq_iff_eq.mpr hth
        have h3 : (a.thread_id == t) = true := beq_iff_eq.mpr (hat.trans hth)
        rw [if_pos hc]
        simp only [thread_checkpoint_ids]
        rw [if_pos h2, if_pos h3, hac, ih]
      · rw [if_neg hc]
        simp only [thread_checkpoint_ids]
        rw [ih]

/-- Appending a row of the thread appends its id to the thread's id list. -/
theorem thread_ids_append (row2 : CheckpointRow) (t : String)
    (hth : row2.thread_id = t) :
    ∀ store : List CheckpointRow,
      thread_checkpoint_ids (store ++ [row2]) t
      = thread_checkpoint_ids store t ++ [row2.checkpoint_id] := by
  intro store
  induction store with
  | nil => simp [thread_checkpoint_ids, hth]
  | cons a rest ih =>
      by_cases hat : a.thread_id == t
      · simp [thread_checkpoint_ids, hat, ih]
      · simp [thread_checkpoint_ids, hat, ih]

-- ─────────────────────────────────────────────────────────────────────────
-- C9: stale checkpoint writes are applied, not rejected
-- ─────────────────────────────────────────────────────────────────────────

/-- A concrete stored checkpoint with id 5. -/
def cp_row5 : CheckpointRow :=
  { thread_id := "t", checkpoint_id := 5, channel_values := "snap5" }

/-- A concrete stale checkpoint write with id 3. -/
def cp_row3 : CheckpointRow :=
  { thread_id := "t", checkpoint_id := 3, channel_values := "snap3" }

/-- Claim C9 as stated is false: a `put` carrying checkpoint id 3 when the
latest stored id for the thread is 5 is applied (upserted) and reported as
success — no stale-write rejection outcome exists. -/
theorem c9_claim_counterexample :
    latest_checkpoint_id [cp_row5] "t" = some 5
    ∧ ¬ 5 < cp_row3.checkpoint_id
    ∧ checkpointer_put [cp_row5] (some "t") cp_row3 = .ok [cp_row5, cp_row3] := by
  exact ⟨rfl, by decide, rfl⟩

/-- Claim C9 (amended): `put` never rejects a stale write — it upserts the
row and reports success — but the stale write cannot displace the latest
checkpoint: the thread's greatest stored checkpoint id is unchanged, and
every stored row with a different checkpoint id survives the write, so the
read of the latest checkpoint (`get_tuple`, greatest id) is unaffected. -/
theorem c9_put_upsert_amended (store : List CheckpointRow) (t : String)
    (row : CheckpointRow) (m : Nat)
    (hlatest : latest_checkpoint_id store t = some m)
    (hstale : row.checkpoint_id ≤ m) :
    ∃ store2 : List CheckpointRow,
      checkpointer_put store (some t) row = .ok store2
      ∧ latest_checkpoint_id store2 t = some m
      ∧ ∀ r ∈ store, r.checkpoint_id ≠ row.checkpoint_id → r ∈ store2 := by
  refine ⟨checkpoint_upsert store { row with thread_id := t }, rfl, ?_, ?_⟩
  · unfold checkpoint_upsert
    by_cases hany : store.any (fun r =>
        r.thread_id == ({ row with thread_id := t } : CheckpointRow).thread_id &&
        r.checkpoint_id ==
          ({ row with thread_id := t } : CheckpointRow).checkpoint_id) = true
    · rw [if_pos hany]
      unfold latest_checkpoint_id
      rw [thread_ids_upsert_replace { row with thread_id := t } t rfl store]
      exact hlatest
    · rw [if_neg hany]
      unfold latest_checkpoint_id
      rw [thread_ids_append { row with thread_id := t } t rfl store]
      rw [max_id_append_singleton]
      unfold latest_checkpoint_id at hlatest
      rw [hlatest]
      simp only [Option.elim, Option.some.injEq]
      exact Nat.max_eq_left hstale
  · intro r hr hne
    unfold checkpoint_upsert
    by_cases hany : store.any (fun q =>
        q.thread_id == ({ row with thread_id := t } : CheckpointRow).thread_id &&
        q.checkpoint_id ==
          ({ row with thread_id := t } : CheckpointRow).checkpoint_id) = true
    · rw [if_pos hany]
      refine List.mem_map.mpr ⟨r, hr, ?_⟩
      rw [if_neg]
      simp only [Bool.and_eq_true, beq_iff_eq]
      intro hcon
      exact hne hcon.2
    · rw [if_neg hany]
      exact List.mem_append_left _ hr

/-- Witness for the amended C9: the concrete stale write with id 3 against
latest id 5. -/
theorem c9_put_upsert_amended_witness :
    ∃ store2 : List CheckpointRow,
      checkpointer_put [cp_row5] (some "t") cp_row3 = .ok store2
      ∧ latest_checkpoint_id store2 "t" = some 5
      ∧ ∀ r ∈ [cp_row5], r.checkpoint_id ≠ cp_row3.checkpoint_id → r ∈ store2 :=
  c9_put_upsert_amended [cp_row5] "t" cp_row3 5 rfl (by decide)
